import Mathlib

/-!
Verification development for the `ciseaux_client` connection-pool crate.

The definitions below are a shallow embedding of `src/lib.rs` and
`src/single.rs`: durations are modelled as natural numbers of milliseconds,
connection capabilities as natural-number identifiers, and the network
environment (the outcome of each `query_async` execution attempt and of each
`get_async_connection` factory invocation) as an oracle indexed by the number
of such calls already made.
-/

namespace Ciseaux

/-- A duration, in milliseconds (embedding of `std::time::Duration`);
`durationFromSecs n` embeds `Duration::from_secs(n)`. -/
def durationFromSecs (n : Nat) : Nat := 1000 * n

/-- Embedding of `redis::RedisError`: only the three classification predicates
used by the pool (`is_timeout`, `is_connection_dropped`, `is_io_error`) plus an
opaque payload `code` distinguishing otherwise-equal errors. -/
structure RedisError where
  isTimeout : Bool
  isConnectionDropped : Bool
  isIoError : Bool
  code : Nat
deriving DecidableEq, Repr

/-- Embedding of `is_network_or_io_error` (src/single.rs lines 265-270). -/
def is_network_or_io_error (error : RedisError) : Bool :=
  if error.isTimeout || error.isConnectionDropped || error.isIoError then true
  else false

/-- Embedding of `ConnectionsCount` (src/lib.rs lines 55-60). -/
inductive ConnectionsCount where
  | Global (v : Nat)
  | PerThread (v : Nat)
deriving DecidableEq, Repr

/-- Embedding of `ReconnectBehavior` (src/lib.rs lines 79-86): the enum has
exactly these three variants in the source. -/
inductive ReconnectBehavior where
  | NoReconnect
  | InstantRetry
  | RetryWaitRetry (d : Option Nat)
deriving DecidableEq, Repr

/-- The variant tags of `ReconnectBehavior`, used to reason about how many
variants the enum declares (as opposed to how many values it has). -/
inductive RBTag where
  | noReconnect
  | instantRetry
  | retryWaitRetry
deriving DecidableEq, Fintype, Repr

/-- The tag of a `ReconnectBehavior` value. -/
def rbTag : ReconnectBehavior → RBTag
  | .NoReconnect => .noReconnect
  | .InstantRetry => .instantRetry
  | .RetryWaitRetry _ => .retryWaitRetry

/-- Embedding of `DEFAULT_WAIT_RETRY_DUR` (src/lib.rs line 51). -/
def DEFAULT_WAIT_RETRY_DUR : Nat := durationFromSecs 2

/-- Modelled from the spec: the constant `DEFAULT_CONN_PER_THREAD` is referenced
by `SingleBuilder::build` (src/single.rs line 54) but no definition of it
appears in the sources under `src/`; spec section 4.1 gives the default
per-parallelism-unit multiplier as 4. -/
def DEFAULT_CONN_PER_THREAD : Nat := 4

/-- Embedding of the `CiseauxSingle` pool (src/single.rs lines 76-82):
each slot's connection capability is a natural-number identifier, `next` is the
shared atomic round-robin cursor. The factory (`client`) is passed separately
to the operations as an oracle. -/
structure CiseauxSingle where
  conns : List Nat
  reconnect_behavior : ReconnectBehavior
  next : Nat
deriving DecidableEq, Repr

/-- One plus the maximum value of `usize`: `AtomicUsize::fetch_add` wraps
modulo this. -/
def USIZE_WRAP : Nat := 2 ^ 64

/-- Resolution of the connection count in `SingleBuilder::build`
(src/single.rs lines 49-55). -/
def resolveConnsCount (conns_count : Option ConnectionsCount) (numCpus : Nat) : Nat :=
  match conns_count with
  | some (ConnectionsCount.Global v) => v
  | some (ConnectionsCount.PerThread v) => numCpus * v
  | none => numCpus * DEFAULT_CONN_PER_THREAD

/-- The collection loop of `SingleBuilder::build` (src/single.rs lines 60-63):
`conns.push(Arc::new(Mutex::new(c?)))` aborts the build at the first failed
connection attempt, in order. -/
def collectConns : List (Except RedisError Nat) → Except RedisError (List Nat)
  | [] => Except.ok []
  | Except.error e :: _ => Except.error e
  | Except.ok c :: rest =>
    match collectConns rest with
    | Except.ok l => Except.ok (c :: l)
    | Except.error e => Except.error e

/-- Embedding of `SingleBuilder::build` (src/single.rs lines 48-73).
`factory i` is the outcome of the i-th of the concurrently issued
`get_async_connection` calls (on success, the new connection's identifier). -/
def build (conns_count : Option ConnectionsCount) (numCpus : Nat)
    (factory : Nat → Except RedisError Nat)
    (reconnect_behavior : Option ReconnectBehavior) :
    Except RedisError CiseauxSingle :=
  let count := resolveConnsCount conns_count numCpus
  match collectConns ((List.range count).map factory) with
  | Except.error e => Except.error e
  | Except.ok conns =>
    Except.ok ⟨conns, reconnect_behavior.getD ReconnectBehavior.InstantRetry, 0⟩

/-- The slot-selection step of `query_cmd` (src/single.rs lines 99-101):
`self.conns[self.next.fetch_add(1, Ordering::AcqRel) % self.conns.len()]`.
Returns the selected index together with the pool after the atomic increment
(`fetch_add` returns the old value and wraps modulo `USIZE_WRAP`). -/
def selectSlot (p : CiseauxSingle) : Nat × CiseauxSingle :=
  (p.next % p.conns.length, { p with next := (p.next + 1) % USIZE_WRAP })

/-- The pool after `k` consecutive slot selections. -/
def stepN (p : CiseauxSingle) : Nat → CiseauxSingle
  | 0 => p
  | k + 1 => (selectSlot (stepN p k)).2

/-- The slot index selected by the (k+1)-th query call (0-indexed `k`). -/
def nthSelection (p : CiseauxSingle) (k : Nat) : Nat :=
  (selectSlot (stepN p k)).1

/-- The environment of one `query_cmd` call on its selected slot:
`execOutcomes k` is the outcome of the (k+1)-th `cmd.query_async` invocation,
`reconnectOutcomes k` the outcome of the (k+1)-th `get_async_connection`
factory invocation (on success, the fresh connection's identifier). -/
structure Oracle (V : Type) where
  execOutcomes : Nat → Except RedisError V
  reconnectOutcomes : Nat → Except RedisError Nat

/-- Observable record of one `query_cmd` call: how many `query_async`
executions ran, how many factory invocations (reconnect attempts) were made,
the list of waits performed (durations in ms, in order), and the connection
held by the slot when the call returns. -/
structure QueryLog where
  execs : Nat
  reconnects : Nat
  waits : List Nat
  finalConn : Nat
deriving DecidableEq, Repr

/-- Embedding of the body of `CiseauxSingle::query_cmd` after slot selection
(src/single.rs lines 102-167), with `try_reconnect` (lines 248-262) inlined:
a successful factory call replaces the slot's connection in place and the
command is retried on it; a failed factory call leaves the connection
unchanged and yields the factory's error. `c0` is the connection initially
held by the selected slot. -/
def query_cmd (rb : ReconnectBehavior) (o : Oracle V) (c0 : Nat) :
    Except RedisError V × QueryLog :=
  match o.execOutcomes 0 with
  | Except.ok v => (Except.ok v, ⟨1, 0, [], c0⟩)
  | Except.error e =>
    if is_network_or_io_error e then
      match rb with
      | ReconnectBehavior.NoReconnect => (Except.error e, ⟨1, 0, [], c0⟩)
      | ReconnectBehavior.InstantRetry =>
        match o.reconnectOutcomes 0 with
        | Except.ok c1 => (o.execOutcomes 1, ⟨2, 1, [], c1⟩)
        | Except.error e2 => (Except.error e2, ⟨1, 1, [], c0⟩)
      | ReconnectBehavior.RetryWaitRetry d =>
        match o.reconnectOutcomes 0 with
        | Except.ok c1 =>
          match o.execOutcomes 1 with
          | Except.ok v => (Except.ok v, ⟨2, 1, [], c1⟩)
          | Except.error e2 =>
            if is_network_or_io_error e2 then
              match o.reconnectOutcomes 1 with
              | Except.ok c2 =>
                (o.execOutcomes 2, ⟨3, 2, [d.getD (durationFromSecs 2)], c2⟩)
              | Except.error e3 =>
                (Except.error e3, ⟨2, 2, [d.getD (durationFromSecs 2)], c1⟩)
            else (Except.error e2, ⟨2, 1, [], c1⟩)
        | Except.error e1 =>
          if is_network_or_io_error e1 then
            match o.reconnectOutcomes 1 with
            | Except.ok c1 =>
              (o.execOutcomes 1, ⟨2, 2, [d.getD (durationFromSecs 2)], c1⟩)
            | Except.error e2 =>
              (Except.error e2, ⟨1, 2, [d.getD (durationFromSecs 2)], c0⟩)
          else (Except.error e1, ⟨1, 1, [], c0⟩)
    else (Except.error e, ⟨1, 0, [], c0⟩)

/-- Pool-level embedding of `CiseauxSingle::try_reconnect`
(src/single.rs lines 248-262), acting on the slot at index `i` whose lock the
caller holds: on factory success the slot's connection is replaced in place
(`*conn = c`); on factory failure the error is returned and the pool is
untouched. -/
def try_reconnect (p : CiseauxSingle) (i : Nat)
    (factoryOutcome : Except RedisError Nat) :
    Except RedisError Unit × CiseauxSingle :=
  match factoryOutcome with
  | Except.ok c => (Except.ok (), { p with conns := p.conns.set i c })
  | Except.error e => (Except.error e, p)

end Ciseaux

namespace Ciseaux

theorem stepN_conns (p : CiseauxSingle) (k : Nat) : (stepN p k).conns = p.conns := by
  induction k with
  | zero => rfl
  | succ k ih => simp [stepN, selectSlot, ih]

theorem stepN_next (p : CiseauxSingle) (h : p.next = 0) (k : Nat) :
    (stepN p k).next = k % USIZE_WRAP := by
  induction k with
  | zero => simpa [stepN]
  | succ k ih =>
    show ((stepN p k).next + 1) % USIZE_WRAP = (k + 1) % USIZE_WRAP
    rw [ih]
    conv_rhs => rw [Nat.add_mod]
    rw [Nat.mod_eq_of_lt (show 1 < USIZE_WRAP by norm_num [USIZE_WRAP])]

theorem nthSelection_eq (p : CiseauxSingle) (h : p.next = 0) (k : Nat) :
    nthSelection p k = (k % USIZE_WRAP) % p.conns.length := by
  simp [nthSelection, selectSlot, stepN_next p h k, stepN_conns]

/-- C1: round-robin fairness. For every pool of `N ≥ 1` slots with the cursor
starting at 0, the (k+1)-th query call selects the slot at index
`cursor.fetch_add(1) mod N`; hence `N` consecutive calls select the `N`
distinct slots `0, 1, …, N-1` exactly once each (the selection list equals
`List.range N`), and the (N+1)-th call reuses slot 0. -/
theorem c1_round_robin (conns : List Nat) (rb : ReconnectBehavior) (N : Nat)
    (hlen : conns.length = N) (hpos : 1 ≤ N) (hlt : N < USIZE_WRAP) :
    (List.range N).map (nthSelection ⟨conns, rb, 0⟩) = List.range N ∧
    nthSelection ⟨conns, rb, 0⟩ N = 0 := by
  have hsel : ∀ k, k ≤ N → nthSelection ⟨conns, rb, 0⟩ k = k % N := by
    intro k hk
    rw [nthSelection_eq ⟨conns, rb, 0⟩ rfl k]
    show k % USIZE_WRAP % conns.length = k % N
    rw [hlen, Nat.mod_eq_of_lt (lt_of_le_of_lt hk hlt)]
  refine ⟨?_, ?_⟩
  · have h1 : ∀ k ∈ List.range N, nthSelection ⟨conns, rb, 0⟩ k = k := by
      intro k hk
      rw [hsel k (le_of_lt (List.mem_range.mp hk))]
      exact Nat.mod_eq_of_lt (List.mem_range.mp hk)
    rw [List.map_congr_left h1, List.map_id']
  · rw [hsel N le_rfl, Nat.mod_self]

/-- Witness for C1: a concrete pool of 3 slots selects slots 0, 1, 2 in order
and the fourth call selects slot 0 again. -/
theorem c1_round_robin_witness :
    (List.range 3).map (nthSelection ⟨[10, 11, 12], ReconnectBehavior.NoReconnect, 0⟩) =
      List.range 3 ∧
    nthSelection ⟨[10, 11, 12], ReconnectBehavior.NoReconnect, 0⟩ 3 = 0 :=
  c1_round_robin [10, 11, 12] ReconnectBehavior.NoReconnect 3 rfl (by norm_num)
    (by norm_num [USIZE_WRAP])

end Ciseaux

namespace Ciseaux

set_option maxRecDepth 4000 in
/-- C2: the claim asserts the Reconnect Policy is a closed set of exactly five
variants (NoReconnect, InstantRetry, RetryWaitRetry, Custom, Infinite); the
source enum `ReconnectBehavior` declares only three variant tags, so no five
distinct variants exist. -/
theorem c2_counterexample : ¬ ∃ f : Fin 5 → RBTag, Function.Injective f := by
  decide

/-- C2 (amended): the Reconnect Policy is a closed set of exactly three
variants — NoReconnect, InstantRetry and RetryWaitRetry (with an optional
delay); there is no Custom and no Infinite variant. -/
theorem c2_three_variants :
    Fintype.card RBTag = 3 ∧
    ∀ rb : ReconnectBehavior,
      rb = ReconnectBehavior.NoReconnect ∨ rb = ReconnectBehavior.InstantRetry ∨
        ∃ d, rb = ReconnectBehavior.RetryWaitRetry d := by
  refine ⟨by decide, ?_⟩
  intro rb
  cases rb with
  | NoReconnect => exact Or.inl rfl
  | InstantRetry => exact Or.inr (Or.inl rfl)
  | RetryWaitRetry d => exact Or.inr (Or.inr ⟨d, rfl⟩)

/-- A timeout error: network-class. -/
def errNet : RedisError := ⟨true, false, false, 1⟩

/-- A dropped-connection error: network-class. -/
def errDrop : RedisError := ⟨false, true, false, 2⟩

/-- A protocol/decode error: not network-class. -/
def errApp : RedisError := ⟨false, false, false, 7⟩

/-- An oracle whose every execution attempt fails with a network-class error
and whose factory always succeeds. -/
def oracleNetFail : Oracle Nat :=
  ⟨fun _ => Except.error errNet, fun k => Except.ok (100 + k)⟩

/-- An oracle whose every execution attempt fails with a non-network error
and whose factory always succeeds. -/
def oracleAppFail : Oracle Nat :=
  ⟨fun _ => Except.error errApp, fun k => Except.ok (100 + k)⟩

/-- C9: under NoReconnect, a query whose execution fails with a network-class
error returns exactly that error, performs zero reconnect attempts (the
factory is never invoked), and leaves the slot's connection unchanged. -/
theorem c9_no_reconnect {V : Type} (o : Oracle V) (c0 : Nat) (e : RedisError)
    (h1 : o.execOutcomes 0 = Except.error e)
    (h2 : is_network_or_io_error e = true) :
    query_cmd ReconnectBehavior.NoReconnect o c0 =
      (Except.error e, ⟨1, 0, [], c0⟩) := by
  simp [query_cmd, h1, h2]

/-- Witness for C9 on a concrete oracle. -/
theorem c9_no_reconnect_witness :
    query_cmd ReconnectBehavior.NoReconnect oracleNetFail 5 =
      (Except.error errNet, ⟨1, 0, [], 5⟩) :=
  c9_no_reconnect oracleNetFail 5 errNet rfl rfl

/-- C4: error classification is the fixed closed predicate
`is_timeout || is_connection_dropped || is_io_error`, and a query failing with
a non-network-class error returns that error immediately, with no reconnect
attempt (no factory invocation) and the slot's connection unchanged,
regardless of the configured policy. -/
theorem c4_non_network_immediate {V : Type} (rb : ReconnectBehavior)
    (o : Oracle V) (c0 : Nat) (e : RedisError)
    (h1 : o.execOutcomes 0 = Except.error e)
    (h2 : is_network_or_io_error e = false) :
    query_cmd rb o c0 = (Except.error e, ⟨1, 0, [], c0⟩) ∧
    (query_cmd rb o c0).2.reconnects = 0 ∧
    is_network_or_io_error e =
      (e.isTimeout || e.isConnectionDropped || e.isIoError) := by
  have hq : query_cmd rb o c0 = (Except.error e, ⟨1, 0, [], c0⟩) := by
    simp [query_cmd, h1, h2]
  refine ⟨hq, by rw [hq], ?_⟩
  cases h : (e.isTimeout || e.isConnectionDropped || e.isIoError) <;>
    simp [is_network_or_io_error, h]

/-- Witness for C4 on a concrete non-network error under RetryWaitRetry. -/
theorem c4_non_network_immediate_witness :
    query_cmd (ReconnectBehavior.RetryWaitRetry none) oracleAppFail 3 =
      (Except.error errApp, ⟨1, 0, [], 3⟩) ∧
    (query_cmd (ReconnectBehavior.RetryWaitRetry none) oracleAppFail 3).2.reconnects = 0 ∧
    is_network_or_io_error errApp =
      (errApp.isTimeout || errApp.isConnectionDropped || errApp.isIoError) :=
  c4_non_network_immediate (ReconnectBehavior.RetryWaitRetry none) oracleAppFail 3
    errApp rfl rfl

/-- C6: under InstantRetry, a query whose execution fails with a network-class
error makes exactly one reconnect attempt; on factory success the command is
retried exactly once on the new connection and that execution's result is
returned as-is, on factory failure the factory's error is returned; in either
case no further reconnects or retries occur. -/
theorem c6_instant_retry {V : Type} (o : Oracle V) (c0 : Nat) (e : RedisError)
    (h1 : o.execOutcomes 0 = Except.error e)
    (h2 : is_network_or_io_error e = true) :
    (query_cmd ReconnectBehavior.InstantRetry o c0).2.reconnects = 1 ∧
    (∀ c1, o.reconnectOutcomes 0 = Except.ok c1 →
      query_cmd ReconnectBehavior.InstantRetry o c0 =
        (o.execOutcomes 1, ⟨2, 1, [], c1⟩)) ∧
    (∀ e2, o.reconnectOutcomes 0 = Except.error e2 →
      query_cmd ReconnectBehavior.InstantRetry o c0 =
        (Except.error e2, ⟨1, 1, [], c0⟩)) := by
  refine ⟨?_, ?_, ?_⟩
  · cases hr : o.reconnectOutcomes 0 <;> simp [query_cmd, h1, h2, hr]
  · intro c1 hr
    simp [query_cmd, h1, h2, hr]
  · intro e2 hr
    simp [query_cmd, h1, h2, hr]

/-- An oracle whose first execution fails with a timeout, whose retried
execution succeeds with the value 42, and whose factory always succeeds. -/
def oracleC6 : Oracle Nat :=
  ⟨fun k => if k = 0 then Except.error errNet else Except.ok 42,
   fun k => Except.ok (200 + k)⟩

/-- Witness for C6: the retried execution's value is returned after exactly
one reconnect. -/
theorem c6_instant_retry_witness :
    query_cmd ReconnectBehavior.InstantRetry oracleC6 7 =
      (Except.ok 42, ⟨2, 1, [], 200⟩) := by
  have h := (c6_instant_retry oracleC6 7 errNet rfl rfl).2.1 200 rfl
  rw [h]
  rfl

end Ciseaux

namespace Ciseaux

/-- C3: under RetryWaitRetry(d), when the first execution and the retried
execution both fail with network-class errors (the first reconnect having
succeeded), exactly one wait of duration `d` — defaulting to 2 seconds when
`d` is unspecified — occurs between the first and second reconnect attempts;
after the second reconnect the command is retried once more and its result
(or the second reconnect's error) is returned: at most two reconnect attempts
and three executions (two retried) in total. -/
theorem c3_retry_wait_retry {V : Type} (o : Oracle V) (c0 : Nat) (d : Option Nat)
    (e0 e1 : RedisError) (c1 : Nat)
    (h0 : o.execOutcomes 0 = Except.error e0)
    (hn0 : is_network_or_io_error e0 = true)
    (hr0 : o.reconnectOutcomes 0 = Except.ok c1)
    (h1 : o.execOutcomes 1 = Except.error e1)
    (hn1 : is_network_or_io_error e1 = true) :
    (query_cmd (ReconnectBehavior.RetryWaitRetry d) o c0).2.waits =
      [d.getD (durationFromSecs 2)] ∧
    (query_cmd (ReconnectBehavior.RetryWaitRetry d) o c0).2.reconnects = 2 ∧
    (query_cmd (ReconnectBehavior.RetryWaitRetry d) o c0).2.execs ≤ 3 ∧
    (∀ c2, o.reconnectOutcomes 1 = Except.ok c2 →
      query_cmd (ReconnectBehavior.RetryWaitRetry d) o c0 =
        (o.execOutcomes 2, ⟨3, 2, [d.getD (durationFromSecs 2)], c2⟩)) ∧
    (∀ e3, o.reconnectOutcomes 1 = Except.error e3 →
      query_cmd (ReconnectBehavior.RetryWaitRetry d) o c0 =
        (Except.error e3, ⟨2, 2, [d.getD (durationFromSecs 2)], c1⟩)) := by
  refine ⟨?_, ?_, ?_, ?_, ?_⟩
  · cases hr : o.reconnectOutcomes 1 <;>
      simp [query_cmd, h0, hn0, hr0, h1, hn1, hr]
  · cases hr : o.reconnectOutcomes 1 <;>
      simp [query_cmd, h0, hn0, hr0, h1, hn1, hr]
  · cases hr : o.reconnectOutcomes 1 <;>
      simp [query_cmd, h0, hn0, hr0, h1, hn1, hr]
  · intro c2 hr
    simp [query_cmd, h0, hn0, hr0, h1, hn1, hr]
  · intro e3 hr
    simp [query_cmd, h0, hn0, hr0, h1, hn1, hr]

/-- An oracle whose first two execution attempts fail with a timeout, whose
third succeeds with 42, and whose factory always succeeds. -/
def oracleC3 : Oracle Nat :=
  ⟨fun k => if k ≤ 1 then Except.error errNet else Except.ok 42,
   fun k => Except.ok (300 + k)⟩

/-- Witness for C3: with no configured delay the single wait is the default
2000 ms, two reconnects happen, and the third execution's value is returned. -/
theorem c3_retry_wait_retry_witness :
    query_cmd (ReconnectBehavior.RetryWaitRetry none) oracleC3 1 =
      (Except.ok 42, ⟨3, 2, [2000], 301⟩) := by
  have h :=
    (c3_retry_wait_retry oracleC3 1 none errNet errNet 300
      rfl rfl rfl rfl rfl).2.2.2.1 301 rfl
  rw [h]
  rfl

/-- An oracle whose execution attempts fail with a timeout and whose factory
always fails with a non-network error. -/
def oracleC7 : Oracle Nat :=
  ⟨fun _ => Except.error errNet, fun _ => Except.error errApp⟩

/-- C7 counterexample: the claim says every factory failure during reconnect is
treated as network-class, so that under RetryWaitRetry a failed first
reconnect still leads to a wait and a second reconnect attempt; but when the
factory fails with a non-network-class error, `query_cmd` returns that error
with no wait and no second reconnect attempt. -/
theorem c7_counterexample :
    query_cmd (ReconnectBehavior.RetryWaitRetry none) oracleC7 0 =
      (Except.error errApp, ⟨1, 1, [], 0⟩) ∧
    (query_cmd (ReconnectBehavior.RetryWaitRetry none) oracleC7 0).2.waits = [] ∧
    (query_cmd (ReconnectBehavior.RetryWaitRetry none) oracleC7 0).2.reconnects = 1 := by
  refine ⟨rfl, rfl, rfl⟩

/-- C7 (amended): a factory failure during the first reconnect attempt under
RetryWaitRetry is classified by the same network-class predicate as command
errors: if the factory's error is network-class, one wait of the policy delay
occurs followed by a second reconnect attempt (and on its success a single
retried execution whose result is returned); if the factory's error is not
network-class, it is returned immediately with no wait and no further
reconnect attempt. -/
theorem c7_factory_failure {V : Type} (o : Oracle V) (c0 : Nat) (d : Option Nat)
    (e0 e1 : RedisError)
    (h0 : o.execOutcomes 0 = Except.error e0)
    (hn0 : is_network_or_io_error e0 = true)
    (hr0 : o.reconnectOutcomes 0 = Except.error e1) :
    (is_network_or_io_error e1 = true →
      (query_cmd (ReconnectBehavior.RetryWaitRetry d) o c0).2.waits =
        [d.getD (durationFromSecs 2)] ∧
      (query_cmd (ReconnectBehavior.RetryWaitRetry d) o c0).2.reconnects = 2 ∧
      (∀ c1, o.reconnectOutcomes 1 = Except.ok c1 →
        query_cmd (ReconnectBehavior.RetryWaitRetry d) o c0 =
          (o.execOutcomes 1, ⟨2, 2, [d.getD (durationFromSecs 2)], c1⟩)) ∧
      (∀ e2, o.reconnectOutcomes 1 = Except.error e2 →
        query_cmd (ReconnectBehavior.RetryWaitRetry d) o c0 =
          (Except.error e2, ⟨1, 2, [d.getD (durationFromSecs 2)], c0⟩))) ∧
    (is_network_or_io_error e1 = false →
      query_cmd (ReconnectBehavior.RetryWaitRetry d) o c0 =
        (Except.error e1, ⟨1, 1, [], c0⟩)) := by
  refine ⟨fun hn1 => ⟨?_, ?_, ?_, ?_⟩, fun hn1 => ?_⟩
  · cases hr : o.reconnectOutcomes 1 <;>
      simp [query_cmd, h0, hn0, hr0, hn1, hr]
  · cases hr : o.reconnectOutcomes 1 <;>
      simp [query_cmd, h0, hn0, hr0, hn1, hr]
  · intro c1 hr
    simp [query_cmd, h0, hn0, hr0, hn1, hr]
  · intro e2 hr
    simp [query_cmd, h0, hn0, hr0, hn1, hr]
  · simp [query_cmd, h0, hn0, hr0, hn1]

/-- An oracle whose first execution fails with a timeout, whose first factory
call fails with a dropped-connection error, and whose later factory calls and
executions succeed. -/
def oracleC7b : Oracle Nat :=
  ⟨fun k => if k = 0 then Except.error errNet else Except.ok 55,
   fun k => if k = 0 then Except.error errDrop else Except.ok (400 + k)⟩

/-- Witness for C7 (amended): a network-class factory failure leads to one
default wait, a second reconnect and the retried execution's value. -/
theorem c7_factory_failure_witness :
    query_cmd (ReconnectBehavior.RetryWaitRetry none) oracleC7b 9 =
      (Except.ok 55, ⟨2, 2, [2000], 401⟩) := by
  have h :=
    ((c7_factory_failure oracleC7b 9 none errNet errDrop rfl rfl rfl).1
      rfl).2.2.1 401 rfl
  rw [h]
  rfl

end Ciseaux

namespace Ciseaux

/-- C5 counterexample: the claim says a resolved connection count of 0 makes
`build` fail with a BuildError, but `build` performs no validation and returns
a pool with zero slots (here with a factory that could only fail, showing it
is never invoked). -/
theorem c5_counterexample :
    build (some (ConnectionsCount.Global 0)) 4 (fun _ => Except.error errNet) none =
      Except.ok ⟨[], ReconnectBehavior.InstantRetry, 0⟩ := rfl

/-- C5 (amended): building a pool with a resolved connection count of 0 does
not fail: `build` returns a pool with zero slots, opening no connections (the
factory is never invoked); the connection-count ≥ 1 constraint is not
enforced. -/
theorem c5_zero_count_builds (numCpus : Nat)
    (factory : Nat → Except RedisError Nat) (rb : Option ReconnectBehavior) :
    build (some (ConnectionsCount.Global 0)) numCpus factory rb =
      Except.ok ⟨[], rb.getD ReconnectBehavior.InstantRetry, 0⟩ := rfl

theorem collectConns_ok (rs : List (Except RedisError Nat))
    (h : ∀ r ∈ rs, ∃ c, r = Except.ok c) :
    ∃ l, collectConns rs = Except.ok l ∧ l.length = rs.length := by
  induction rs with
  | nil => exact ⟨[], rfl, rfl⟩
  | cons r rest ih =>
    obtain ⟨c, rfl⟩ := h r (List.mem_cons_self r rest)
    obtain ⟨l, hl, hlen⟩ := ih (fun r hr => h r (List.mem_cons_of_mem _ hr))
    refine ⟨c :: l, ?_, by simp [hlen]⟩
    simp [collectConns, hl]

theorem collectConns_error (rs : List (Except RedisError Nat)) (k : Nat)
    (e : RedisError) (h1 : rs[k]? = some (Except.error e))
    (h2 : ∀ i, i < k → ∃ c, rs[i]? = some (Except.ok c)) :
    collectConns rs = Except.error e := by
  induction rs generalizing k with
  | nil => simp at h1
  | cons r rest ih =>
    cases k with
    | zero =>
      simp at h1
      rw [h1]
      rfl
    | succ k =>
      obtain ⟨c, hc⟩ := h2 0 (Nat.succ_pos k)
      simp at hc
      subst hc
      have hrest := ih k (by simpa using h1)
        (fun i hi => by simpa using h2 (i + 1) (Nat.succ_lt_succ hi))
      simp [collectConns, hrest]

/-- C8: pool construction is atomic. If every one of the
`resolveConnsCount`-many connection attempts succeeds, `build` returns a pool
with exactly one slot per connection, cursor initialized to 0 and the
configured (or default) reconnect policy; if some attempt fails, `build`
returns the first error and no pool value is produced. -/
theorem c8_build_atomic (cc : Option ConnectionsCount) (numCpus : Nat)
    (factory : Nat → Except RedisError Nat) (rb : Option ReconnectBehavior) :
    ((∀ i, i < resolveConnsCount cc numCpus → ∃ c, factory i = Except.ok c) →
      ∃ p, build cc numCpus factory rb = Except.ok p ∧
        p.conns.length = resolveConnsCount cc numCpus ∧ p.next = 0 ∧
        p.reconnect_behavior = rb.getD ReconnectBehavior.InstantRetry) ∧
    (∀ k e, k < resolveConnsCount cc numCpus → factory k = Except.error e →
      (∀ i, i < k → ∃ c, factory i = Except.ok c) →
      build cc numCpus factory rb = Except.error e) := by
  constructor
  · intro h
    have hall : ∀ r ∈ (List.range (resolveConnsCount cc numCpus)).map factory,
        ∃ c, r = Except.ok c := by
      intro r hr
      obtain ⟨i, hi, rfl⟩ := List.mem_map.mp hr
      exact h i (List.mem_range.mp hi)
    obtain ⟨l, hl, hlen⟩ := collectConns_ok _ hall
    refine ⟨⟨l, rb.getD ReconnectBehavior.InstantRetry, 0⟩, ?_, ?_, rfl, rfl⟩
    · simp [build, hl]
    · simpa using hlen
  · intro k e hk hke hprev
    have h1 : ((List.range (resolveConnsCount cc numCpus)).map factory)[k]? =
        some (Except.error e) := by
      rw [List.getElem?_map]
      simp [List.getElem?_range, hk, hke]
    have h2 : ∀ i, i < k →
        ∃ c, ((List.range (resolveConnsCount cc numCpus)).map factory)[i]? =
          some (Except.ok c) := by
      intro i hi
      obtain ⟨c, hc⟩ := hprev i hi
      refine ⟨c, ?_⟩
      rw [List.getElem?_map]
      simp [List.getElem?_range, lt_trans hi hk, hc]
    simp [build, collectConns_error _ k e h1 h2]

/-- A factory for which every connection attempt succeeds. -/
def factOkC8 : Nat → Except RedisError Nat := fun i => Except.ok (10 + i)

/-- A factory whose second connection attempt fails with a network error. -/
def factFailC8 : Nat → Except RedisError Nat :=
  fun i => if i = 1 then Except.error errDrop else Except.ok (10 + i)

/-- Witness for C8 on a pool of 2 connections: the all-success build yields a
2-slot pool with cursor 0 and the one-failure build yields the error. -/
theorem c8_build_atomic_witness :
    (∃ p, build (some (ConnectionsCount.Global 2)) 1 factOkC8 none = Except.ok p ∧
      p.conns.length = 2 ∧ p.next = 0 ∧
      p.reconnect_behavior = ReconnectBehavior.InstantRetry) ∧
    build (some (ConnectionsCount.Global 2)) 1 factFailC8 none =
      Except.error errDrop := by
  constructor
  · exact (c8_build_atomic (some (ConnectionsCount.Global 2)) 1 factOkC8 none).1
      (fun i _ => ⟨10 + i, rfl⟩)
  · refine (c8_build_atomic (some (ConnectionsCount.Global 2)) 1 factFailC8 none).2
      1 errDrop (by decide) rfl ?_
    intro i hi
    have h0 : i = 0 := by omega
    subst h0
    exact ⟨10, rfl⟩

/-- C10: reconnect is frame-local and never torn. `try_reconnect` on slot `i`
leaves the slot count, the cursor, the policy and every other slot's
connection unchanged; when the factory fails the pool is exactly unchanged
(slot `i` retains its previous connection) and the factory's error is
returned; and in every case the slot array is in a definite old-or-new state:
either exactly the old array, or the old array with slot `i` replaced by the
fresh connection. -/
theorem c10_reconnect_frame (p : CiseauxSingle) (i : Nat)
    (outcome : Except RedisError Nat) :
    (try_reconnect p i outcome).2.conns.length = p.conns.length ∧
    (try_reconnect p i outcome).2.next = p.next ∧
    (try_reconnect p i outcome).2.reconnect_behavior = p.reconnect_behavior ∧
    (∀ j, j ≠ i → (try_reconnect p i outcome).2.conns[j]? = p.conns[j]?) ∧
    (∀ e, outcome = Except.error e →
      (try_reconnect p i outcome).2 = p ∧
      (try_reconnect p i outcome).1 = Except.error e) ∧
    ((try_reconnect p i outcome).2.conns = p.conns ∨
      ∃ c, outcome = Except.ok c ∧
        (try_reconnect p i outcome).2.conns = p.conns.set i c) := by
  cases outcome with
  | ok c =>
    refine ⟨by simp [try_reconnect], rfl, rfl, ?_, ?_, Or.inr ⟨c, rfl, rfl⟩⟩
    · intro j hj
      show (p.conns.set i c)[j]? = p.conns[j]?
      exact List.getElem?_set_ne (Ne.symm hj)
    · intro e he
      exact Except.noConfusion he
  | error e0 =>
    refine ⟨rfl, rfl, rfl, fun j hj => rfl, ?_, Or.inl rfl⟩
    intro e he
    injection he with h
    subst h
    exact ⟨rfl, rfl⟩

/-- A concrete 3-slot pool. -/
def poolC10 : CiseauxSingle := ⟨[1, 2, 3], ReconnectBehavior.NoReconnect, 4⟩

/-- Witness for C10: replacing slot 1 leaves slot 0 unchanged, and a failed
factory call leaves the pool exactly as it was. -/
theorem c10_reconnect_frame_witness :
    (try_reconnect poolC10 1 (Except.ok 9)).2.conns[0]? = poolC10.conns[0]? ∧
    (try_reconnect poolC10 1 (Except.error errNet)).2 = poolC10 :=
  ⟨(c10_reconnect_frame poolC10 1 (Except.ok 9)).2.2.2.1 0 (by decide),
   ((c10_reconnect_frame poolC10 1 (Except.error errNet)).2.2.2.2.1 errNet rfl).1⟩

end Ciseaux
